import Mathlib

/-!
Shallow embedding of the `bue221/music-downloader` repository
(`src/music_downloader/*.py`) and proofs about its specification.

Pure string manipulation is modelled on `List Char`; the filesystem, the
remote catalogs and the fetch engine are modelled as explicit state and
environment records; Python exceptions are modelled with `Except`.
-/

namespace MusicDownloader

/-! ## `utils.py` -/

/-- Characters removed by `sanitize_filename`
(`re.sub(r'[<>:\x22/\\|?*]', '', name)`, utils.py line 23). -/
def forbiddenChars : List Char := ['<', '>', ':', '"', '/', '\\', '|', '?', '*']

/-- ASCII whitespace, as matched by the regex `\s` in
`re.sub(r'\s+', ' ', ...)` (utils.py line 25) and removed by `str.strip()`
(utils.py line 27). -/
def isWs (c : Char) : Bool := c ∈ [' ', '\t', '\n', '\x0b', '\x0c', '\r']

/-- `re.sub(r'[<>:\x22/\\|?*]', '', name)`: delete every forbidden character. -/
def removeForbidden (l : List Char) : List Char := l.filter (fun c => !forbiddenChars.contains c)

/-- `re.sub(r'\s+', ' ', sanitized)`: each maximal whitespace run becomes one
space.  The flag records whether the previous character belonged to a run whose
replacement space was already emitted. -/
def collapseWsAux : Bool → List Char → List Char
  | _, [] => []
  | prevWs, c :: rest =>
    if isWs c then
      if prevWs then collapseWsAux true rest
      else ' ' :: collapseWsAux true rest
    else c :: collapseWsAux false rest

/-- `re.sub(r'\s+', ' ', sanitized)`. -/
def collapseWs (l : List Char) : List Char := collapseWsAux false l

/-- Remove the trailing whitespace run (the right half of `str.strip()`). -/
def dropTrailingWs : List Char → List Char
  | [] => []
  | c :: rest =>
    let r := dropTrailingWs rest
    if r.isEmpty && isWs c then [] else c :: r

/-- `str.strip()`: remove leading and trailing whitespace. -/
def stripWs (l : List Char) : List Char := dropTrailingWs (l.dropWhile (fun c => isWs c))

/-- `sanitize_filename` (utils.py lines 10-29): drop forbidden characters,
collapse whitespace runs to single spaces, strip, and keep the first 200
characters (`sanitized[:200] if len(sanitized) > 200 else sanitized`). -/
def sanitize_filename (name : String) : String :=
  let s1 := removeForbidden name.data
  let s2 := collapseWs s1
  let s3 := stripWs s2
  if s3.length > 200 then String.mk (s3.take 200) else String.mk s3

/-- `True` when no two adjacent characters are both whitespace. -/
def noWsRun : List Char → Bool
  | [] => true
  | [_] => true
  | a :: b :: rest => (!(isWs a && isWs b)) && noWsRun (b :: rest)

/-- `is_playlist_url` (utils.py lines 83-92):
`'list=' in url or '/playlist/' in url`. -/
def hasSubstrAux (needle : List Char) : List Char → Bool
  | [] => needle.isEmpty
  | c :: rest => needle.isPrefixOf (c :: rest) || hasSubstrAux needle rest

/-- Python's `needle in hay` on strings. -/
def strContains (hay needle : String) : Bool := hasSubstrAux needle.data hay.data

/-- `is_playlist_url` (utils.py lines 83-92). -/
def is_playlist_url (url : String) : Bool :=
  strContains url "list=" || strContains url "/playlist/"

/-! ### Lemmas about `sanitize_filename` -/

theorem mem_collapseWsAux {c : Char} :
    ∀ (b : Bool) (l : List Char), c ∈ collapseWsAux b l → c = ' ' ∨ c ∈ l := by
  intro b l
  induction l generalizing b with
  | nil => intro h; simp [collapseWsAux] at h
  | cons a rest ih =>
    intro h
    by_cases ha : isWs a
    · by_cases hb : b
      · subst hb
        simp only [collapseWsAux, ha, if_true] at h
        rcases ih true h with h' | h'
        · exact Or.inl h'
        · exact Or.inr (List.mem_cons_of_mem _ h')
      · simp only [Bool.not_eq_true] at hb; subst hb
        simp only [collapseWsAux, ha, if_true] at h
        rcases List.mem_cons.mp h with h' | h'
        · exact Or.inl h'
        · rcases ih true h' with h'' | h''
          · exact Or.inl h''
          · exact Or.inr (List.mem_cons_of_mem _ h'')
    · simp only [collapseWsAux, ha, Bool.false_eq_true, if_false] at h
      rcases List.mem_cons.mp h with h' | h'
      · exact Or.inr (h' ▸ List.mem_cons_self a rest)
      · rcases ih false h' with h'' | h''
        · exact Or.inl h''
        · exact Or.inr (List.mem_cons_of_mem _ h'')

theorem head?_collapseWsAux_true {c : Char} :
    ∀ l : List Char, (collapseWsAux true l).head? = some c → isWs c = false := by
  intro l
  induction l with
  | nil => intro h; simp [collapseWsAux] at h
  | cons a rest ih =>
    intro h
    by_cases ha : isWs a
    · simp only [collapseWsAux, ha, if_true] at h
      exact ih h
    · simp only [collapseWsAux, ha, Bool.false_eq_true, if_false, List.head?_cons,
        Option.some.injEq] at h
      subst h
      exact Bool.eq_false_iff.mpr ha

theorem noWsRun_cons {c : Char} {l : List Char}
    (hhead : ∀ d, l.head? = some d → (isWs c && isWs d) = false)
    (htail : noWsRun l = true) : noWsRun (c :: l) = true := by
  cases l with
  | nil => rfl
  | cons d rest =>
    have hd := hhead d rfl
    simp only [noWsRun, Bool.and_eq_true]
    exact ⟨by simp [hd], htail⟩

theorem noWsRun_collapseWsAux : ∀ (l : List Char) (b : Bool),
    noWsRun (collapseWsAux b l) = true := by
  intro l
  induction l with
  | nil => intro b; rfl
  | cons a rest ih =>
    intro b
    by_cases ha : isWs a
    · cases b with
      | true => simpa [collapseWsAux, ha] using ih true
      | false =>
        simp only [collapseWsAux, ha, if_true]
        refine noWsRun_cons ?_ (ih true)
        intro d hd
        have := head?_collapseWsAux_true _ hd
        simp [this]
    · simp only [collapseWsAux, ha, Bool.false_eq_true, if_false]
      refine noWsRun_cons ?_ (ih false)
      intro d _
      simp [Bool.eq_false_iff.mpr ha]

theorem noWsRun_tail {a : Char} {l : List Char} (h : noWsRun (a :: l) = true) :
    noWsRun l = true := by
  cases l with
  | nil => rfl
  | cons b rest =>
    simp only [noWsRun, Bool.and_eq_true] at h
    exact h.2

theorem noWsRun_dropWhile {p : Char → Bool} :
    ∀ l : List Char, noWsRun l = true → noWsRun (l.dropWhile p) = true := by
  intro l
  induction l with
  | nil => intro h; exact h
  | cons a rest ih =>
    intro h
    by_cases hp : p a
    · rw [List.dropWhile_cons_of_pos hp]
      exact ih (noWsRun_tail h)
    · rwa [List.dropWhile_cons_of_neg hp]

theorem head?_dropTrailingWs {c : Char} :
    ∀ l : List Char, (dropTrailingWs l).head? = some c → l.head? = some c := by
  intro l
  induction l with
  | nil => intro h; simp [dropTrailingWs] at h
  | cons a rest _ =>
    intro h
    simp only [dropTrailingWs] at h
    by_cases hc : (dropTrailingWs rest).isEmpty && isWs a
    · simp [hc] at h
    · simp only [hc, Bool.false_eq_true, if_false, List.head?_cons, Option.some.injEq] at h
      simp [h]

theorem noWsRun_dropTrailingWs :
    ∀ l : List Char, noWsRun l = true → noWsRun (dropTrailingWs l) = true := by
  intro l
  induction l with
  | nil => intro h; exact h
  | cons a rest ih =>
    intro h
    simp only [dropTrailingWs]
    by_cases hc : (dropTrailingWs rest).isEmpty && isWs a
    · rw [if_pos hc]; rfl
    · simp only [hc, Bool.false_eq_true, if_false]
      refine noWsRun_cons ?_ (ih (noWsRun_tail h))
      intro d hd
      have hd' := head?_dropTrailingWs rest hd
      cases rest with
      | nil => simp at hd'
      | cons b rest' =>
        simp only [List.head?_cons, Option.some.injEq] at hd'
        subst hd'
        simp only [noWsRun, Bool.and_eq_true] at h
        have h1 := h.1
        cases ha2 : isWs a <;> cases hb2 : isWs b <;> simp_all

theorem getLast?_dropTrailingWs {c : Char} :
    ∀ l : List Char, (dropTrailingWs l).getLast? = some c → isWs c = false := by
  intro l
  induction l with
  | nil => intro h; simp [dropTrailingWs] at h
  | cons a rest ih =>
    intro h
    simp only [dropTrailingWs] at h
    by_cases hc : (dropTrailingWs rest).isEmpty && isWs a
    · simp [hc] at h
    · simp only [hc, Bool.false_eq_true, if_false] at h
      rcases hr : dropTrailingWs rest with _ | ⟨b, r'⟩
      · rw [hr] at h
        simp only [List.getLast?_singleton, Option.some.injEq] at h
        subst h
        rw [hr] at hc
        simpa using hc
      · rw [hr, List.getLast?_cons_cons] at h
        exact ih (by rw [hr]; exact h)

theorem head?_dropWhileWs {c : Char} :
    ∀ l : List Char, (l.dropWhile (fun c => isWs c)).head? = some c → isWs c = false := by
  intro l
  induction l with
  | nil => intro h; simp at h
  | cons a rest ih =>
    intro h
    by_cases ha : isWs a
    · rw [List.dropWhile_cons_of_pos (by simpa using ha)] at h
      exact ih h
    · rw [List.dropWhile_cons_of_neg (by simpa using ha)] at h
      simp only [List.head?_cons, Option.some.injEq] at h
      subst h
      exact Bool.eq_false_iff.mpr ha

theorem head?_take {α : Type} {c : α} :
    ∀ (n : Nat) (l : List α), (l.take n).head? = some c → l.head? = some c := by
  intro n l
  cases n with
  | zero => intro h; simp at h
  | succ m =>
    cases l with
    | nil => intro h; simp at h
    | cons a rest => intro h; simpa using h

theorem noWsRun_take : ∀ (l : List Char) (n : Nat),
    noWsRun l = true → noWsRun (l.take n) = true := by
  intro l
  induction l with
  | nil => intro n h; simpa using h
  | cons a rest ih =>
    intro n h
    cases n with
    | zero => rfl
    | succ m =>
      rw [List.take_succ_cons]
      refine noWsRun_cons ?_ (ih m (noWsRun_tail h))
      intro d hd
      have hd' := head?_take m rest hd
      cases rest with
      | nil => simp at hd'
      | cons b rest' =>
        simp only [List.head?_cons, Option.some.injEq] at hd'
        subst hd'
        simp only [noWsRun, Bool.and_eq_true] at h
        have h1 := h.1
        cases ha2 : isWs a <;> cases hb2 : isWs b <;> simp_all

theorem mem_dropTrailingWs {c : Char} :
    ∀ l : List Char, c ∈ dropTrailingWs l → c ∈ l := by
  intro l
  induction l with
  | nil => intro h; simp [dropTrailingWs] at h
  | cons a rest ih =>
    intro h
    simp only [dropTrailingWs] at h
    by_cases hc : (dropTrailingWs rest).isEmpty && isWs a
    · simp [hc] at h
    · simp only [hc, Bool.false_eq_true, if_false] at h
      rcases List.mem_cons.mp h with h' | h'
      · exact h' ▸ List.mem_cons_self a rest
      · exact List.mem_cons_of_mem _ (ih h')

theorem mem_stripWs {c : Char} {l : List Char} (h : c ∈ stripWs l) : c ∈ l := by
  have h1 := mem_dropTrailingWs _ h
  exact (List.dropWhile_sublist _).subset h1

/-! ## `cache.py` — the Completion Ledger -/

/-- A JSON value, as produced by `json.load`. -/
inductive Json where
  | obj (fields : List (String × Json))
  | arr (elems : List Json)
  | str (s : String)
  | num (n : Int)
  | boolean (b : Bool)
  | null

/-- The Python exception classes raised by the modelled code. -/
inductive PyErr where
  | keyError (key : String)
  | typeError
  | attributeError (msg : String)
  | nameError (unbound : String)
  | indexError
deriving DecidableEq

/-- Python `x[key]` with a string key: lookup on a `dict` (raising `KeyError`
when absent); on any other value it raises `TypeError`. -/
def Json.index : Json → String → Except PyErr Json
  | .obj fields, k =>
    match fields.lookup k with
    | some v => .ok v
    | none => .error (.keyError k)
  | _, _ => .error .typeError

/-- Python `key in x`: key test on a `dict`, element test on a `list`,
substring test on a `str`; on other values it raises `TypeError`. -/
def Json.hasKey : Json → String → Except PyErr Bool
  | .obj fields, k => .ok (fields.any (fun kv => kv.1 == k))
  | .arr elems, k =>
      .ok (elems.any (fun e => match e with | .str s => s == k | _ => false))
  | .str s, k => .ok (strContains s k)
  | _, _ => .error .typeError

/-- Python `x.get(key)` (`dict.get`, default `None`): only a `dict` has the
method; on anything else attribute lookup raises `AttributeError`. -/
def Json.dictGet : Json → String → Except PyErr Json
  | .obj fields, k => .ok ((fields.lookup k).getD .null)
  | _, _ => .error (.attributeError "get")

/-- The value stored under a path key, as a string when it is one (the paths
this program writes are always strings; any other stored value is kept out
of the optional path field). -/
def Json.asPath : Json → Option String
  | .str s => some s
  | _ => none

/-- Python truthiness (`if song:`). -/
def Json.truthy : Json → Bool
  | .obj fields => !fields.isEmpty
  | .arr elems => !elems.isEmpty
  | .str s => s != ""
  | .num n => n != 0
  | .boolean b => b
  | .null => false

/-- Python `d[key] = v` on a `dict`: overwrite in place, or append a new key. -/
def assocSet : List (String × Json) → String → Json → List (String × Json)
  | [], k, v => [(k, v)]
  | (k', v') :: rest, k, v =>
    if k' == k then (k', v) :: rest else (k', v') :: assocSet rest k v

/-- The ledger backing file as seen by `DownloadCache._load`: missing, present
but not decodable by `json.load` (which raises `json.JSONDecodeError` or
`IOError`), or present with some parsed JSON value. -/
inductive LedgerFile where
  | missing
  | undecodable
  | parsed (j : Json)

namespace DownloadCache

/-- `DownloadCache._load` (cache.py lines 31-39): a missing file or a
`json.JSONDecodeError`/`IOError` during load yields `{"songs": {}}`; any value
that `json.load` does produce is kept unchanged, whatever its shape. -/
def load : LedgerFile → Json
  | .missing => .obj [("songs", .obj [])]
  | .undecodable => .obj [("songs", .obj [])]
  | .parsed j => j

/-- The in-memory store of a cache built over a missing or corrupt file. -/
def emptyData : Json := .obj [("songs", .obj [])]

/-- `DownloadCache.is_downloaded` (cache.py lines 46-55):
`song_id in self._data["songs"]`. -/
def is_downloaded (data : Json) (songId : String) : Except PyErr Bool := do
  let songs ← data.index "songs"
  songs.hasKey songId

/-- `DownloadCache.get_path` (cache.py lines 57-67):
`song = self._data["songs"].get(song_id)`, then
`song.get("path") if song else None`. -/
def get_path (data : Json) (songId : String) : Except PyErr Json := do
  let songs ← data.index "songs"
  let song ← songs.dictGet songId
  if song.truthy then song.dictGet "path" else .ok .null

/-- The record written by `DownloadCache.register` (cache.py lines 88-95);
`datetime.now().isoformat()` is passed in as `now`. -/
def record (title artist source path : String) (playlistName : Option String)
    (now : String) : Json :=
  .obj [("title", .str title), ("artist", .str artist), ("source", .str source),
        ("path", .str path),
        ("playlist", match playlistName with | some p => .str p | none => .null),
        ("downloaded_at", .str now)]

/-- `DownloadCache.register` (cache.py lines 69-96):
`self._data["songs"][song_id] = {...}` followed by `self._save()`; the result
is the new in-memory store (persist failures are outside this model). -/
def register (data : Json) (songId title artist source path : String)
    (playlistName : Option String) (now : String) : Except PyErr Json :=
  match data with
  | .obj dfields =>
      match dfields.lookup "songs" with
      | none => .error (.keyError "songs")
      | some (Json.obj fields) =>
          .ok (Json.obj (assocSet dfields "songs"
            (Json.obj (assocSet fields songId
              (record title artist source path playlistName now)))))
      | some _ => .error .typeError
  | _ => .error .typeError

/-- `DownloadCache.list_songs` (cache.py lines 98-107):
`[{"id": song_id, **data} for song_id, data in self._data["songs"].items()]`.
`.items()` exists only on a `dict`, and `{**data}` requires each record to be
a mapping. -/
def list_songs (data : Json) : Except PyErr (List Json) := do
  let songs ← data.index "songs"
  match songs with
  | .obj fields =>
      fields.mapM (fun kv =>
        match kv.2 with
        | .obj rfields => .ok (Json.obj (("id", Json.str kv.1) :: rfields))
        | _ => .error .typeError)
  | _ => .error (.attributeError "items")

/-- `DownloadCache.clear` (cache.py lines 109-112): replace the store with
`{"songs": {}}` and persist; it never reads the old store. -/
def clear (_data : Json) : Json := .obj [("songs", .obj [])]

end DownloadCache

/-! ## `filesystem.py` — the Filesystem Reconciler -/

/-- An `.mp3` file, as far as the scanners read it: its filename stem and the
optional `TXXX:video_id` tag (`get_video_id_from_mp3`, filesystem.py
lines 15-32). -/
structure Mp3File where
  stem : String
  videoIdTag : Option String
deriving DecidableEq

/-- The scanned music tree: `music/playlists/<name>/*.mp3`,
`music/singles/*.mp3` and `music/*.mp3` (nothing deeper is ever scanned).
`root` is the path of the music directory; `others` holds files written to
unscanned locations (directory path × file). -/
structure MusicDir where
  root : String
  playlists : List (String × List Mp3File)
  singles : List Mp3File
  rootFiles : List Mp3File
  others : List (String × Mp3File)
deriving DecidableEq

/-- The metadata dictionary built by `get_mp3_metadata` together with the
`playlist` and `id` keys that the scanners add (the constant `album: None`
entry is omitted). -/
structure SongMeta where
  title : String
  artist : String
  videoId : Option String
  path : String
  filename : String
  playlist : Option String
  id : Option String
deriving DecidableEq

/-- Python `s.split(sep, 1)` at the first occurrence of `sep`, `none` when
`sep` does not occur. -/
def splitOnceAux (sep : List Char) : List Char → Option (List Char × List Char)
  | [] => none
  | c :: rest =>
    if sep.isPrefixOf (c :: rest) then some ([], (c :: rest).drop sep.length)
    else match splitOnceAux sep rest with
         | some (a, b) => some (c :: a, b)
         | none => none

/-- `get_mp3_metadata` (filesystem.py lines 94-129): title and artist are
parsed from the filename stem (`"<artist> - <title>"`, both stripped), with
the whole stem as title otherwise; `video_id` is read from the file tag.  The
dictionary always contains the key `video_id`, possibly with value `None`. -/
def get_mp3_metadata (dir : String) (f : Mp3File) : SongMeta :=
  let filename := f.stem ++ ".mp3"
  match splitOnceAux (" - ".data) f.stem.data with
  | some (a, t) =>
      { title := String.mk (stripWs t), artist := String.mk (stripWs a),
        videoId := f.videoIdTag, path := dir ++ "/" ++ filename,
        filename := filename, playlist := none, id := none }
  | none =>
      { title := f.stem, artist := "Unknown", videoId := f.videoIdTag,
        path := dir ++ "/" ++ filename, filename := filename,
        playlist := none, id := none }

/-- Insertion sort by `≤` on strings: Python `sorted` (the input order is the
unspecified `iterdir` listing order). -/
def insertSorted (s : String) : List String → List String
  | [] => [s]
  | t :: rest => if s ≤ t then s :: t :: rest else t :: insertSorted s rest

/-- Python `sorted` on a list of strings. -/
def sortStrings : List String → List String
  | [] => []
  | s :: rest => insertSorted s (sortStrings rest)

/-- `scan_playlists` (filesystem.py lines 132-153): the names of the immediate
subdirectories of `music/playlists` containing at least one `*.mp3` file,
sorted. -/
def scan_playlists (md : MusicDir) : List String :=
  sortStrings ((md.playlists.filter (fun p => !p.2.isEmpty)).map (fun p => p.1))

/-- The per-file step shared by the scanners: build the metadata and add the
`playlist` key and the `id` key.  `metadata['id'] =
metadata.get('video_id', mp3_file.stem)` (filesystem.py lines 175, 204, 212):
the `video_id` key is always present in the dictionary (its value may be
`None`), so `dict.get`'s default — the filename stem — is never used, and
`id` is exactly the optional tag value. -/
def scanItem (dir : String) (playlist : Option String) (f : Mp3File) : SongMeta :=
  let m := get_mp3_metadata dir f
  { m with playlist := playlist, id := m.videoId }

/-- `scan_songs_in_playlist` (filesystem.py lines 156-178): every `*.mp3`
directly inside `music/playlists/<name>`; `[]` when the directory does not
exist. -/
def scan_songs_in_playlist (md : MusicDir) (name : String) : List SongMeta :=
  match md.playlists.lookup name with
  | none => []
  | some files => files.map (scanItem (md.root ++ "/playlists/" ++ name) (some name))

/-- `scan_all_songs` (filesystem.py lines 181-215): playlist songs (playlists
in sorted order), then `music/singles/*.mp3`, then `music/*.mp3`; the last
two scopes get `playlist = None`. -/
def scan_all_songs (md : MusicDir) : List SongMeta :=
  let fromPlaylists :=
    (scan_playlists md).foldl (fun acc pl => acc ++ scan_songs_in_playlist md pl) []
  let fromSingles := md.singles.map (scanItem (md.root ++ "/singles") none)
  let fromRoot := md.rootFiles.map (scanItem md.root none)
  fromPlaylists ++ fromSingles ++ fromRoot

/-- `find_song_by_video_id` (filesystem.py lines 218-234): the first scanned
song whose `video_id` equals the argument. -/
def find_song_by_video_id (md : MusicDir) (videoId : String) : Option SongMeta :=
  (scan_all_songs md).find? (fun s => s.videoId == some videoId)

/-- `is_song_downloaded` (filesystem.py lines 237-247). -/
def is_song_downloaded (md : MusicDir) (videoId : String) : Bool :=
  (find_song_by_video_id md videoId).isSome

/-! ## Item descriptors -/

/-- The per-item result dictionary handed back by the adapters.  A key a code
path does not set is modelled as `none` (respectively `false` for `skipped`,
matching the falsy `None` that `dict.get` yields for an absent key). -/
structure Desc where
  id : Option String := none
  title : Option String := none
  artist : Option String := none
  skipped : Bool := false
  path : Option String := none
  error : Option String := none
  url : Option String := none
deriving DecidableEq

/-- Truthiness of `r.get('skipped')` as used by the summaries. -/
def Desc.skippedTruthy (d : Desc) : Bool := d.skipped

/-- Truthiness of `r.get('error')` as used by the summaries: the key is
present and holds a non-empty message. -/
def Desc.errorTruthy (d : Desc) : Bool :=
  match d.error with
  | some s => s != ""
  | none => false

/-- Exceptions crossing the adapter boundaries. -/
inductive PyExc where
  | youtubeDownloadError (msg : String)
  | spotifyDownloadError (msg : String)
  | pyError (e : PyErr)
  | otherError (msg : String)
deriving DecidableEq

/-- Python `str(e)` for the modelled exceptions. -/
def PyErr.text : PyErr → String
  | .keyError k => "\x27" ++ k ++ "\x27"
  | .typeError => "type error"
  | .attributeError m => m
  | .nameError v => "name \x27" ++ v ++ "\x27 is not defined"
  | .indexError => "list index out of range"

/-- Python `str(e)` for the modelled exceptions. -/
def PyExc.text : PyExc → String
  | .youtubeDownloadError m => m
  | .spotifyDownloadError m => m
  | .pyError e => e.text
  | .otherError m => m

/-! ## Shared pipeline state -/

/-- The mutable state the pipeline touches: the music tree and the in-memory
ledger store. -/
structure St where
  musicDir : MusicDir
  cacheData : Json

/-- A download directory, resolved against the music root. -/
inductive Dir where
  | singles
  | playlistDir (name : String)
  | musicRoot
  | other (path : String)
deriving DecidableEq

/-- The pathname of a download directory. -/
def Dir.path (d : Dir) (root : String) : String :=
  match d with
  | .singles => root ++ "/singles"
  | .playlistDir name => root ++ "/playlists/" ++ name
  | .musicRoot => root
  | .other p => p

/-- Overwrite-or-create `<stem>.mp3` in a directory listing. -/
def putFile (fs : List Mp3File) (f : Mp3File) : List Mp3File :=
  if fs.any (fun g => g.stem == f.stem) then
    fs.map (fun g => if g.stem == f.stem then f else g)
  else fs ++ [f]

/-- Overwrite-or-create a file inside `music/playlists/<name>` (the directory
is created first by `ensure_directory`). -/
def putPlaylistFile (pls : List (String × List Mp3File)) (name : String)
    (f : Mp3File) : List (String × List Mp3File) :=
  if pls.any (fun p => p.1 == name) then
    pls.map (fun p => if p.1 == name then (p.1, putFile p.2 f) else p)
  else pls ++ [(name, [f])]

/-- The effect on the music tree of the fetch engine writing
`<dir>/<stem>.mp3` followed by `save_mp3_metadata` embedding title, artist and
`video_id` (youtube.py lines 144-153): the model folds both external effects
into the appearance of the tagged file. -/
def MusicDir.addFile (md : MusicDir) (d : Dir) (f : Mp3File) : MusicDir :=
  match d with
  | .singles => { md with singles := putFile md.singles f }
  | .playlistDir name => { md with playlists := putPlaylistFile md.playlists name f }
  | .musicRoot => { md with rootFiles := putFile md.rootFiles f }
  | .other p => { md with others := md.others ++ [(p, f)] }

/-- Python `or`-style choice between optional strings: an absent value and an
empty string are both falsy. -/
def pyStr (o : Option String) : Option String :=
  match o with
  | some s => if s = "" then none else some s
  | none => none

/-- `a or b` for optional strings. -/
def pyOrStr (a b : Option String) : Option String :=
  match pyStr a with
  | some s => some s
  | none => pyStr b

/-! ## `youtube.py` — primary Source Adapter -/

/-- `extract_info` output for a single video, read through `info.get('id',
'')`, `info.get('title', 'Unknown')` and `info.get('uploader',
info.get('channel', 'Unknown'))`. -/
structure YtInfo where
  id? : Option String := none
  title? : Option String := none
  uploader? : Option String := none
  channel? : Option String := none
deriving DecidableEq

/-- One entry of `extract_info(..., extract_flat='in_playlist')['entries']`. -/
structure PlEntry where
  url? : Option String := none
  webpageUrl? : Option String := none
  id? : Option String := none
  title? : Option String := none
deriving DecidableEq

/-- Playlist metadata; `entries` may contain `None` entries. -/
structure PlaylistInfo where
  title? : Option String := none
  entries : List (Option PlEntry) := []
deriving DecidableEq

/-- The external collaborators of the YouTube adapter: the single-video
metadata probe, the playlist probe and the fetch engine (`ydl.download`),
each returning a result or the text of the exception it raises, plus the
timestamp taken by `datetime.now()` on register. -/
structure YtEnv where
  extractInfo : String → Except String YtInfo
  extractPlaylist : String → Except String PlaylistInfo
  fetch : String → Except String Unit
  now : String

/-- The outcome of one `_download_single` call: the descriptor, the state
after the call, and how many times the fetch engine ran. -/
structure SingleOut where
  desc : Desc
  st : St
  fetches : Nat

namespace YouTubeDownloader

/-- `YouTubeDownloader._download_single` (youtube.py lines 89-173). -/
def download_single (env : YtEnv) (st : St) (url : String)
    (outputDir? : Option Dir) (playlistName? : Option String) :
    Except PyExc SingleOut :=
  match env.extractInfo url with
  | .error e =>
      .error (.youtubeDownloadError ("No se pudo obtener información: " ++ e))
  | .ok info =>
    let videoId := info.id?.getD ""
    let title := info.title?.getD "Unknown"
    let artist := info.uploader?.getD (info.channel?.getD "Unknown")
    if is_song_downloaded st.musicDir videoId then
      .ok { desc := { id := some videoId, title := some title, artist := some artist,
                      skipped := true,
                      path := (find_song_by_video_id st.musicDir videoId).map
                                (fun s => s.path) },
            st := st, fetches := 0 }
    else
      let outDir := outputDir?.getD Dir.singles
      let safeTitle := sanitize_filename title
      match env.fetch url with
      | .error e =>
          .error (.youtubeDownloadError ("Error descargando " ++ url ++ ": " ++ e))
      | .ok _ =>
        let finalPath := outDir.path st.musicDir.root ++ "/" ++ safeTitle ++ ".mp3"
        let md' := st.musicDir.addFile outDir { stem := safeTitle, videoIdTag := some videoId }
        match DownloadCache.register st.cacheData videoId title artist "youtube"
                finalPath playlistName? env.now with
        | .error e => .error (.pyError e)
        | .ok data' =>
          .ok { desc := { id := some videoId, title := some title,
                          artist := some artist, skipped := false,
                          path := some finalPath },
                st := { musicDir := md', cacheData := data' }, fetches := 1 }

/-- One iteration of the `_download_playlist` entry loop (youtube.py lines
212-237): `None` entries and entries without a usable url are skipped;
per-entry exceptions are caught (`except Exception`) and become error
descriptors. -/
def playlistStep (env : YtEnv) (playlistDir : Dir) (playlistName : String)
    (acc : St × List Desc × Nat) (entry? : Option PlEntry) : St × List Desc × Nat :=
  let (st, res, n) := acc
  match entry? with
  | none => (st, res, n)
  | some entry =>
    let videoUrl? :=
      match pyOrStr entry.url? entry.webpageUrl? with
      | some u => some u
      | none =>
        match pyStr entry.id? with
        | some vid => some ("https://www.youtube.com/watch?v=" ++ vid)
        | none => none
    match videoUrl? with
    | none => (st, res, n)
    | some videoUrl =>
      match download_single env st videoUrl (some playlistDir) (some playlistName) with
      | .ok out => (out.st, res ++ [out.desc], n + out.fetches)
      | .error e =>
          (st, res ++ [{ id := some (entry.id?.getD "unknown"),
                         title := some (entry.title?.getD "Unknown"),
                         error := some e.text }], n)

/-- `YouTubeDownloader._download_playlist` (youtube.py lines 175-239).  The
playlist probe at line 192 is not wrapped, so its exception (of an external
class, not `YouTubeDownloadError`) propagates raw. -/
def download_playlist (env : YtEnv) (st : St) (url : String)
    (outputDir? : Option Dir) (playlistName? : Option String) :
    Except PyExc (St × List Desc × Nat) :=
  match env.extractPlaylist url with
  | .error e => .error (.otherError e)
  | .ok pinfo =>
    let playlistName :=
      match pyStr playlistName? with
      | some n => n
      | none => sanitize_filename (pinfo.title?.getD "Unknown Playlist")
    let playlistDir := outputDir?.getD (Dir.playlistDir playlistName)
    .ok (pinfo.entries.foldl (playlistStep env playlistDir playlistName) (st, [], 0))

/-- `YouTubeDownloader.download` (youtube.py lines 64-87): classify by
`is_playlist_url`. -/
def download (env : YtEnv) (st : St) (url : String)
    (outputDir? : Option Dir) (playlistName? : Option String) :
    Except PyExc (St × List Desc × Nat) :=
  if is_playlist_url url then download_playlist env st url outputDir? playlistName?
  else
    match download_single env st url outputDir? playlistName? with
    | .ok out => .ok (out.st, [out.desc], out.fetches)
    | .error e => .error e

end YouTubeDownloader

/-! ## `spotify.py` — secondary Source Adapter -/

/-- `self._spotify.track(track_id)`: name and artist names. -/
structure SpTrack where
  name : String
  artists : List String
deriving DecidableEq

/-- One entry of `album['tracks']['items']`. -/
structure SpAlbumTrack where
  id : String
  name : String
deriving DecidableEq

/-- `self._spotify.album(album_id)`. -/
structure SpAlbum where
  name : String
  artists : List String
  totalTracks : Nat
  tracks : List SpAlbumTrack
deriving DecidableEq

/-- The external collaborators of the Spotify adapter (the catalog client),
plus the register timestamp. -/
structure SpEnv where
  track : String → SpTrack
  album : String → SpAlbum
  now : String

/-- ASCII alphanumeric, the class `[a-zA-Z0-9]`. -/
def isAsciiAlphanum (c : Char) : Bool :=
  ('a' ≤ c && c ≤ 'z') || ('A' ≤ c && c ≤ 'Z') || ('0' ≤ c && c ≤ '9')

/-- `re.search(rf'{t}/([a-zA-Z0-9]+)', url)` (spotify.py lines 278-301): at
the leftmost position where `<t>/` is followed by at least one alphanumeric
character, capture the maximal alphanumeric run. -/
def reSearchIdAux (pat : List Char) : List Char → Option (List Char)
  | [] => none
  | c :: rest =>
    if pat.isPrefixOf (c :: rest) then
      let run := ((c :: rest).drop pat.length).takeWhile isAsciiAlphanum
      if run.isEmpty then reSearchIdAux pat rest else some run
    else reSearchIdAux pat rest

/-- `SpotifyHandler._extract_id` (spotify.py lines 278-301). -/
def spotifyExtractId (url : String) (resourceType : String) : Except PyExc String :=
  match reSearchIdAux (resourceType.data ++ ['/']) url.data with
  | some run => .ok (String.mk run)
  | none =>
      .error (.spotifyDownloadError
        ("No se pudo extraer ID de " ++ resourceType ++ " de: " ++ url))

namespace SpotifyHandler

/-- `SpotifyHandler._download_track_with_zotify` (spotify.py lines 71-73):
`raise AttributeError("_download_track_with_zotify not yet implemented")`,
unconditionally. -/
def download_track_with_zotify (_trackUrl : String) (_outputDir? : Option Dir)
    (_playlistName? : Option String) : Except PyExc Desc :=
  .error (.pyError (.attributeError "_download_track_with_zotify not yet implemented"))

/-- `SpotifyHandler._download_track` (spotify.py lines 100-150): extract the
id, check the Ledger under the key `spotify:<track_id>`, and on a miss fetch
metadata and delegate to `_download_track_with_zotify`; the code after the
delegation (register on success, spotify.py lines 139-150) is kept although
the delegation never returns normally. -/
def download_track (env : SpEnv) (st : St) (url : String)
    (outputDir? : Option Dir) (playlistName? : Option String) :
    Except PyExc (Desc × St) :=
  match spotifyExtractId url "track" with
  | .error e => .error e
  | .ok trackId =>
    match DownloadCache.is_downloaded st.cacheData ("spotify:" ++ trackId) with
    | .error e => .error (.pyError e)
    | .ok true =>
      match DownloadCache.get_path st.cacheData ("spotify:" ++ trackId) with
      | .error e => .error (.pyError e)
      | .ok pathJson =>
        .ok ({ id := some trackId, skipped := true,
               path := pathJson.asPath }, st)
    | .ok false =>
      let track := env.track trackId
      let title := track.name
      let artists := String.intercalate ", " track.artists
      match download_track_with_zotify url outputDir? playlistName? with
      | .error e => .error e
      | .ok result =>
        if !result.skipped && (pyStr result.path).isSome then
          match DownloadCache.register st.cacheData ("spotify:" ++ trackId) title
                  artists "spotify" (result.path.getD "") playlistName? env.now with
          | .error e => .error (.pyError e)
          | .ok data' => .ok (result, { st with cacheData := data' })
        else .ok (result, st)

/-- The reference to the local variable `album_name` at spotify.py line 265.
No assignment to `album_name` exists anywhere in the module, so evaluating it
raises `NameError: name 'album_name' is not defined`. -/
def albumNameVar : Except PyErr String := .error (.nameError "album_name")

/-- One iteration of the `_download_album` track loop (spotify.py lines
259-274): inside the per-track `try`, the keyword arguments of the
`_download_track` call are evaluated first; `album_name` raises `NameError`,
which the `except Exception` handler converts into an error descriptor. -/
def albumStep (env : SpEnv) (albumDir : Dir) (acc : List Desc × St)
    (track : SpAlbumTrack) : List Desc × St :=
  let (res, st') := acc
  match albumNameVar with
  | .error e =>
      (res ++ [{ id := some track.id, title := some track.name,
                 error := some (PyExc.pyError e).text }], st')
  | .ok albumName =>
      let trackUrl := "https://open.spotify.com/track/" ++ track.id
      match download_track env st' trackUrl (some albumDir) (some albumName) with
      | .ok (d, st'') => (res ++ [d], st'')
      | .error e =>
          (res ++ [{ id := some track.id, title := some track.name,
                     error := some e.text }], st')

/-- `SpotifyHandler._download_album` (spotify.py lines 221-276): resolve the
album, derive the directory name, then process each member inside a
per-member `except Exception`.  The call arguments at lines 262-266 mention
`album_name`, so every iteration raises `NameError` before `_download_track`
is entered, and the handler converts it into that member's error
descriptor. -/
def download_album (env : SpEnv) (st : St) (url : String)
    (outputDir? : Option Dir) (playlistName? : Option String) :
    Except PyExc (List Desc × St) :=
  match spotifyExtractId url "album" with
  | .error e => .error e
  | .ok albumId =>
    let album := env.album albumId
    match (match pyStr playlistName? with
           | some n => Except.ok n
           | none =>
             let fixedName := sanitize_filename album.name
             match album.artists with
             | [] => Except.error PyErr.indexError
             | artist :: _ => Except.ok (artist ++ " - " ++ fixedName)) with
    | .error e => .error (.pyError e)
    | .ok albumPlaylistName =>
      let albumDir := outputDir?.getD (Dir.playlistDir albumPlaylistName)
      .ok (album.tracks.foldl (albumStep env albumDir) ([], st))

end SpotifyHandler

/-! ## Batch orchestration: `ui/workers.py` and `main.py` -/

/-- `DownloadWorker._calculate_summary` (workers.py lines 116-137). -/
structure Summary where
  downloaded : Nat
  skipped : Nat
  errors : Nat
  total : Nat
deriving DecidableEq

/-- `DownloadWorker._calculate_summary` (workers.py lines 116-137):
`downloaded = #(not skipped and not error)`, `skipped = #(skipped)`,
`errors = #(error)`, `total = len(results)`. -/
def calculateSummary (results : List Desc) : Summary :=
  { downloaded := (results.filter (fun r => !r.skippedTruthy && !r.errorTruthy)).length,
    skipped := (results.filter (fun r => r.skippedTruthy)).length,
    errors := (results.filter (fun r => r.errorTruthy)).length,
    total := results.length }

/-- One iteration of the `DownloadWorker.run` url loop (workers.py lines
83-105): `except YouTubeDownloadError` yields the error dictionary
`{"error": str(e), "url": url}` and the loop continues; any other exception
escapes to the outer `except Exception` (workers.py line 113), which emits
`download_error` and produces no summary.  The cancellation flag stays
`False` (no cancellation is requested). -/
def workerStep (env : YtEnv) (outputDir? : Option Dir)
    (playlistName? : Option String) (acc : Except String (St × List Desc))
    (url : String) : Except String (St × List Desc) :=
  match acc with
  | .error e => .error e
  | .ok (st, res) =>
    match YouTubeDownloader.download env st url outputDir? playlistName? with
    | .ok (st', descs, _) => .ok (st', res ++ descs)
    | .error (.youtubeDownloadError m) =>
        .ok (st, res ++ [{ error := some m, url := some url }])
    | .error e => .error ("Error inesperado: " ++ e.text)

/-- `DownloadWorker.run` (workers.py lines 61-114). -/
def workerRun (env : YtEnv) (st : St) (urls : List String)
    (outputDir? : Option Dir) (playlistName? : Option String) :
    Except String (Summary × St) :=
  match urls.foldl (workerStep env outputDir? playlistName?) (.ok (st, [])) with
  | .ok (st', res) => .ok (calculateSummary res, st')
  | .error e => .error e

/-- The counts printed by the CLI summary (main.py lines 132-134): the same
three comprehensions as `_calculate_summary`. -/
def cliCounts (results : List Desc) : Nat × Nat × Nat :=
  ((results.filter (fun r => !r.skippedTruthy && !r.errorTruthy)).length,
   (results.filter (fun r => r.skippedTruthy)).length,
   (results.filter (fun r => r.errorTruthy)).length)

/-- The `platform == 'youtube'` url loop of the CLI `download` command
(main.py lines 96-151), as those lines read (the module itself cannot even be
imported: the `try:` opened at main.py line 115 has no matching
`except`/`finally`, a Python SyntaxError).  There is no per-url handler: the
first exception from `downloader.download` propagates to the handlers at
lines 143-151, which print the error and `raise SystemExit(1)`; the remaining
urls are never attempted and no summary is printed.  The first component
collects the urls actually attempted. -/
def cliLoop (env : YtEnv) (outputDir? : Option Dir) (playlistName? : Option String) :
    St → List String → List String → List Desc →
    List String × Except PyExc (Nat × Nat × Nat)
  | _, [], attempted, res => (attempted, .ok (cliCounts res))
  | st, url :: rest, attempted, res =>
    match YouTubeDownloader.download env st url outputDir? playlistName? with
    | .ok (st', descs, _) =>
        cliLoop env outputDir? playlistName? st' rest (attempted ++ [url]) (res ++ descs)
    | .error e => (attempted ++ [url], .error e)

/-- The CLI batch entry point for the YouTube platform. -/
def cliDownloadYoutube (env : YtEnv) (st : St) (urls : List String)
    (outputDir? : Option Dir) (playlistName? : Option String) :
    List String × Except PyExc (Nat × Nat × Nat) :=
  cliLoop env outputDir? playlistName? st urls [] []

/-! ## Concrete fixtures and result projections used by the claims -/

/-- An empty music tree. -/
def md0 : MusicDir :=
  { root := "music", playlists := [], singles := [], rootFiles := [], others := [] }

/-- Empty tree, freshly loaded empty ledger. -/
def st0 : St := { musicDir := md0, cacheData := DownloadCache.emptyData }

/-- A Spotify catalog environment with one album of two tracks. -/
def spEnv0 : SpEnv :=
  { track := fun _ => { name := "Song", artists := ["Artist"] },
    album := fun _ =>
      { name := "Album", artists := ["Artist"], totalTracks := 2,
        tracks := [{ id := "t1", name := "SongOne" }, { id := "t2", name := "SongTwo" }] },
    now := "2024-01-01T00:00:00" }

/-- A YouTube environment where the second of three references fails at the
metadata probe and the other two download fine. -/
def ytEnvC1 : YtEnv :=
  { extractInfo := fun u =>
      if u = "https://youtu.be/aaa" then
        .ok { id? := some "aaa", title? := some "SongA", uploader? := some "Ua" }
      else if u = "https://youtu.be/ccc" then
        .ok { id? := some "ccc", title? := some "SongC", uploader? := some "Uc" }
      else .error "boom",
    extractPlaylist := fun _ => .error "no playlist",
    fetch := fun _ => .ok (),
    now := "2024-01-01T00:00:00" }

/-- A YouTube environment whose playlist probe yields three entries. -/
def ytEnv3 : YtEnv :=
  { extractInfo := fun u =>
      if u = "https://www.youtube.com/watch?v=aaa" then
        .ok { id? := some "aaa", title? := some "SongA", uploader? := some "U" }
      else if u = "https://www.youtube.com/watch?v=bbb" then
        .ok { id? := some "bbb", title? := some "SongB", uploader? := some "U" }
      else if u = "https://www.youtube.com/watch?v=ccc" then
        .ok { id? := some "ccc", title? := some "SongC", uploader? := some "U" }
      else .error "boom",
    extractPlaylist := fun _ =>
      .ok { title? := some "PL",
            entries :=
              [some { url? := some "https://www.youtube.com/watch?v=aaa",
                      id? := some "aaa", title? := some "SongA" },
               some { url? := some "https://www.youtube.com/watch?v=bbb",
                      id? := some "bbb", title? := some "SongB" },
               some { url? := some "https://www.youtube.com/watch?v=ccc",
                      id? := some "ccc", title? := some "SongC" }] },
    fetch := fun _ => .ok (),
    now := "2024-01-01T00:00:00" }

/-- A YouTube environment resolving one fixed video. -/
def ytEnv1 : YtEnv :=
  { extractInfo := fun _ =>
      .ok { id? := some "vidY", title? := some "SongY", uploader? := some "Uy" },
    extractPlaylist := fun _ => .error "no playlist",
    fetch := fun _ => .ok (),
    now := "2024-01-01T00:00:00" }

/-- A ledger store holding the YouTube id `vidY` and the Spotify key
`spotify:tid1`. -/
def cacheC2 : Json :=
  .obj [("songs", .obj
    [("vidY", DownloadCache.record "SongY" "Uy" "youtube" "music/singles/SongY.mp3"
        none "2024-01-01T00:00:00"),
     ("spotify:tid1", DownloadCache.record "Song" "Artist" "spotify" "music/sp.mp3"
        none "2024-01-01T00:00:00")])]

/-- Ledger hits for both platforms, but an empty music tree. -/
def stC2 : St := { musicDir := md0, cacheData := cacheC2 }

/-- A music tree whose `singles` directory holds a file tagged `vidY`. -/
def mdHit : MusicDir :=
  { root := "music", playlists := [],
    singles := [{ stem := "SongY", videoIdTag := some "vidY" }],
    rootFiles := [], others := [] }

/-- Filesystem hit for `vidY` and ledger hit for `spotify:tid1`. -/
def stHit : St := { musicDir := mdHit, cacheData := cacheC2 }

/-- A file whose stem parses as `<artist> - <title>` but which carries no
`video_id` tag. -/
def untaggedFile : Mp3File := { stem := "Artist - Tune", videoIdTag := none }

/-- A file carrying a `video_id` tag. -/
def taggedFile : Mp3File := { stem := "Other - Tune", videoIdTag := some "vid123" }

/-- A tree with one untagged and one tagged file under `singles`. -/
def mdC7 : MusicDir :=
  { root := "music", playlists := [], singles := [untaggedFile, taggedFile],
    rootFiles := [], others := [] }

/-- A file present both directly under the root and in the `singles` bucket. -/
def dupFile : Mp3File := { stem := "Dup - Twice", videoIdTag := some "dup1" }

/-- A tree exercising the three scopes of `scan_all_songs`, with `dupFile`
in two scopes at once. -/
def mdC9 : MusicDir :=
  { root := "music",
    playlists := [("zeta", [taggedFile]), ("alpha", [untaggedFile]), ("empty", [])],
    singles := [dupFile],
    rootFiles := [dupFile],
    others := [] }

/-- The tagged file that a successful `_download_single` fetch leaves on
disk (youtube.py lines 133-153). -/
def fetchedFile (info : YtInfo) : Mp3File :=
  { stem := sanitize_filename (info.title?.getD "Unknown"),
    videoIdTag := some (info.id?.getD "") }

/-- 199 `a`s, one interior space, one `b`: 201 characters, no forbidden
character, no whitespace run, nothing to strip. -/
def overlongName : String := String.mk (List.replicate 199 'a' ++ [' ', 'b'])

/-- The state after downloading `vidY` into the empty tree `st0`. -/
def stAfterC4 : St :=
  { musicDir := { root := "music", playlists := [],
                  singles := [{ stem := "SongY", videoIdTag := some "vidY" }],
                  rootFiles := [], others := [] },
    cacheData := .obj [("songs", .obj
      [("vidY", DownloadCache.record "SongY" "Uy" "youtube"
          "music/singles/SongY.mp3" none "2024-01-01T00:00:00")])] }

/-- The success descriptor of that first download. -/
def d1C4 : Desc :=
  { id := some "vidY", title := some "SongY", artist := some "Uy",
    skipped := false, path := some "music/singles/SongY.mp3" }

/-- The `skipped` flag of a `_download_single` outcome. -/
def singleSkipped : Except PyExc SingleOut → Option Bool
  | .ok out => some out.desc.skipped
  | .error _ => none

/-- The fetch-engine invocation count of a `_download_single` outcome. -/
def singleFetches : Except PyExc SingleOut → Option Nat
  | .ok out => some out.fetches
  | .error _ => none

/-- The number of descriptors a `download` call produced. -/
def descCount : Except PyExc (St × List Desc × Nat) → Option Nat
  | .ok (_, ds, _) => some ds.length
  | .error _ => none

/-- The summary of a worker run, if it produced one. -/
def workerSummary : Except String (Summary × St) → Option Summary
  | .ok (s, _) => some s
  | .error _ => none

/-! ## Claim C8: properties of `sanitize_filename` -/

theorem sanitize_filename_eq (s : String) :
    sanitize_filename s =
      (if (stripWs (collapseWs (removeForbidden s.data))).length > 200
       then String.mk ((stripWs (collapseWs (removeForbidden s.data))).take 200)
       else String.mk (stripWs (collapseWs (removeForbidden s.data)))) := rfl

theorem mem_sanitize {s : String} {c : Char}
    (h : c ∈ (sanitize_filename s).data) :
    c ∈ stripWs (collapseWs (removeForbidden s.data)) := by
  rw [sanitize_filename_eq] at h
  by_cases h200 : (stripWs (collapseWs (removeForbidden s.data))).length > 200
  · rw [if_pos h200] at h
    exact List.take_subset _ _ h
  · rw [if_neg h200] at h
    exact h

/-- C8: `sanitize_filename` is deterministic; its output contains no
filesystem-forbidden character, has no run of two adjacent whitespace
characters, no leading whitespace, and length at most 200.  The claim's
final clause — no trailing whitespace — holds only when the
collapsed-and-stripped string already fits in 200 characters (see the
counterexample): truncation can cut the string right after an interior
space. -/
theorem c8_sanitize_properties (s : String) :
    sanitize_filename s = sanitize_filename s ∧
    (∀ c ∈ (sanitize_filename s).data, c ∉ forbiddenChars) ∧
    noWsRun (sanitize_filename s).data = true ∧
    (∀ c, (sanitize_filename s).data.head? = some c → isWs c = false) ∧
    (sanitize_filename s).length ≤ 200 ∧
    ((stripWs (collapseWs (removeForbidden s.data))).length ≤ 200 →
      ∀ c, (sanitize_filename s).data.getLast? = some c → isWs c = false) := by
  refine ⟨rfl, ?_, ?_, ?_, ?_, ?_⟩
  · intro c hc
    have h2 := mem_stripWs (mem_sanitize hc)
    rcases mem_collapseWsAux false _ h2 with h3 | h3
    · subst h3; decide
    · have h4 := List.mem_filter.mp h3
      simpa using h4.2
  · rw [sanitize_filename_eq]
    by_cases h200 : (stripWs (collapseWs (removeForbidden s.data))).length > 200
    · rw [if_pos h200]
      exact noWsRun_take _ _
        (noWsRun_dropTrailingWs _ (noWsRun_dropWhile _ (noWsRun_collapseWsAux _ false)))
    · rw [if_neg h200]
      exact noWsRun_dropTrailingWs _ (noWsRun_dropWhile _ (noWsRun_collapseWsAux _ false))
  · intro c hc
    rw [sanitize_filename_eq] at hc
    by_cases h200 : (stripWs (collapseWs (removeForbidden s.data))).length > 200
    · rw [if_pos h200] at hc
      exact head?_dropWhileWs _ (head?_dropTrailingWs _ (head?_take _ _ hc))
    · rw [if_neg h200] at hc
      exact head?_dropWhileWs _ (head?_dropTrailingWs _ hc)
  · rw [sanitize_filename_eq]
    by_cases h200 : (stripWs (collapseWs (removeForbidden s.data))).length > 200
    · rw [if_pos h200]
      show (List.take 200 (stripWs (collapseWs (removeForbidden s.data)))).length ≤ 200
      rw [List.length_take]
      exact min_le_left _ _
    · rw [if_neg h200]
      show (stripWs (collapseWs (removeForbidden s.data))).length ≤ 200
      exact Nat.le_of_not_lt h200
  · intro hlen c hc
    rw [sanitize_filename_eq, if_neg (by omega)] at hc
    exact getLast?_dropTrailingWs _ hc

/-- C8 witness: the theorem applied to the spec's own example input. -/
theorem c8_sanitize_properties_witness :
    (sanitize_filename "Artist: \x22Best\x22 / Hits").length ≤ 200 ∧
    noWsRun (sanitize_filename "Artist: \x22Best\x22 / Hits").data = true :=
  ⟨(c8_sanitize_properties "Artist: \x22Best\x22 / Hits").2.2.2.2.1,
   (c8_sanitize_properties "Artist: \x22Best\x22 / Hits").2.2.1⟩

set_option maxRecDepth 4000 in
/-- C8 counterexample: the claim asserts the output never has trailing
whitespace, but truncation at 200 characters cuts `overlongName` directly
after its interior space, so the output ends in whitespace. -/
theorem c8_trailing_whitespace_counterexample :
    (sanitize_filename overlongName).data.getLast? = some ' ' ∧ isWs ' ' = true := by
  constructor
  · decide
  · decide

/-! ## Claim C3: Ledger load-failure resilience -/

/-- C3 (amended): constructing the Ledger never raises, and for a missing
backing file or one that `json.load` cannot decode the store degrades to
`{"songs": {}}`, after which `is_downloaded`, `get_path`, `register`,
`list_songs` and `clear` all behave exactly as on an empty store.  (A file
that decodes to JSON of an unexpected shape is instead kept as loaded —
see the counterexample.) -/
theorem c3_load_failure_empty_store (fs : LedgerFile)
    (h : fs = .missing ∨ fs = .undecodable) :
    DownloadCache.load fs = DownloadCache.emptyData ∧
    (∀ songId, DownloadCache.is_downloaded (DownloadCache.load fs) songId = .ok false) ∧
    (∀ songId, DownloadCache.get_path (DownloadCache.load fs) songId = .ok .null) ∧
    (∀ songId title artist source path pn now,
      DownloadCache.register (DownloadCache.load fs) songId title artist source path pn now
        = .ok (Json.obj [("songs",
            Json.obj [(songId, DownloadCache.record title artist source path pn now)])])) ∧
    DownloadCache.list_songs (DownloadCache.load fs) = .ok [] ∧
    DownloadCache.clear (DownloadCache.load fs) = DownloadCache.emptyData := by
  rcases h with h | h <;> subst h <;>
    exact ⟨rfl, fun _ => rfl, fun _ => rfl, fun _ _ _ _ _ _ _ => rfl, rfl, rfl⟩

/-- C3 witness: the theorem applied to a missing backing file and the key
`"abc"`. -/
theorem c3_load_failure_empty_store_witness :
    DownloadCache.load .missing = DownloadCache.emptyData ∧
    DownloadCache.is_downloaded (DownloadCache.load .missing) "abc" = .ok false :=
  ⟨(c3_load_failure_empty_store .missing (Or.inl rfl)).1,
   (c3_load_failure_empty_store .missing (Or.inl rfl)).2.1 "abc"⟩

/-- C3 counterexample: the file content `{}` decodes as JSON but is not the
expected `{"songs": {...}}` shape; `_load` keeps it as-is rather than
degrading to the empty store, and `is_downloaded` then raises `KeyError`
instead of behaving as on an empty store (which answers `.ok false`). -/
theorem c3_wrong_shape_counterexample :
    DownloadCache.load (.parsed (.obj [])) = Json.obj [] ∧
    DownloadCache.is_downloaded (DownloadCache.load (.parsed (.obj []))) "x"
      = .error (.keyError "songs") ∧
    DownloadCache.is_downloaded DownloadCache.emptyData "x" = .ok false :=
  ⟨rfl, rfl, rfl⟩

/-! ## Claim C5: the not-implemented delegation -/

/-- C5: the Spotify adapter's downstream fetch delegation unconditionally
raises its clearly named not-implemented condition (an `AttributeError`
whose message names the missing capability); it never returns a value, and a
`_download_track` call that is not skipped by the ledger surfaces that same
condition rather than any success. -/
theorem c5_zotify_not_implemented
    (env : SpEnv) (st : St) (url : String) (odir? : Option Dir)
    (pn? : Option String) (trackId : String)
    (hid : spotifyExtractId url "track" = .ok trackId)
    (hmiss : DownloadCache.is_downloaded st.cacheData ("spotify:" ++ trackId) = .ok false) :
    SpotifyHandler.download_track_with_zotify url odir? pn?
      = .error (.pyError (.attributeError "_download_track_with_zotify not yet implemented")) ∧
    (∀ d, SpotifyHandler.download_track_with_zotify url odir? pn? ≠ .ok d) ∧
    SpotifyHandler.download_track env st url odir? pn?
      = .error (.pyError (.attributeError "_download_track_with_zotify not yet implemented")) := by
  refine ⟨rfl, ?_, ?_⟩
  · intro d h
    simp [SpotifyHandler.download_track_with_zotify] at h
  · unfold SpotifyHandler.download_track
    simp only [hid, hmiss]
    rfl

/-- C5 witness: the theorem applied to a concrete track url over an empty
ledger. -/
theorem c5_zotify_not_implemented_witness :
    SpotifyHandler.download_track spEnv0 st0 "https://open.spotify.com/track/abc123" none none
      = .error (.pyError (.attributeError "_download_track_with_zotify not yet implemented")) :=
  (c5_zotify_not_implemented spEnv0 st0 "https://open.spotify.com/track/abc123"
      none none "abc123" rfl rfl).2.2

/-! ## Claim C6: the unbound `album_name` in the album path -/

theorem albumStep_eq (env : SpEnv) (albumDir : Dir) (res : List Desc) (st : St)
    (t : SpAlbumTrack) :
    SpotifyHandler.albumStep env albumDir (res, st) t
      = (res ++ [{ id := some t.id, title := some t.name,
                   error := some "name \x27album_name\x27 is not defined" }], st) := rfl

theorem albumStep_fold (env : SpEnv) (albumDir : Dir) :
    ∀ (ts : List SpAlbumTrack) (res : List Desc) (st : St),
      ts.foldl (SpotifyHandler.albumStep env albumDir) (res, st)
        = (res ++ ts.map (fun t =>
            { id := some t.id, title := some t.name,
              error := some "name \x27album_name\x27 is not defined" }), st) := by
  intro ts
  induction ts with
  | nil => intro res st; simp
  | cons t ts ih =>
    intro res st
    rw [List.foldl_cons, albumStep_eq, ih]
    simp

/-- C6: in `_download_album` every member's processing evaluates the unbound
variable `album_name` inside the per-member handler, so each member yields an
error descriptor carrying the `NameError` text — never a success or a skip —
and the state is untouched. -/
theorem c6_album_unbound_name (env : SpEnv) (st : St) (url : String)
    (odir? : Option Dir) (pn? : Option String) (albumId : String) (pname : String)
    (hid : spotifyExtractId url "album" = .ok albumId)
    (hpn : pyStr pn? = some pname) :
    SpotifyHandler.download_album env st url odir? pn?
      = .ok ((env.album albumId).tracks.map (fun t =>
          { id := some t.id, title := some t.name,
            error := some "name \x27album_name\x27 is not defined" }), st) ∧
    (∀ d ∈ (env.album albumId).tracks.map (fun t =>
          ({ id := some t.id, title := some t.name,
             error := some "name \x27album_name\x27 is not defined" } : Desc)),
        d.errorTruthy = true ∧ d.skipped = false ∧ d.path = none) := by
  constructor
  · unfold SpotifyHandler.download_album
    simp only [hid, hpn]
    rw [albumStep_fold]
    simp
  · intro d hd
    rcases List.mem_map.mp hd with ⟨t, _, rfl⟩
    exact ⟨rfl, rfl, rfl⟩

/-- C6 witness: the theorem applied to the two-track album of `spEnv0`. -/
theorem c6_album_unbound_name_witness :
    SpotifyHandler.download_album spEnv0 st0 "https://open.spotify.com/album/alb99"
        none (some "MyAlbum")
      = .ok ([{ id := some "t1", title := some "SongOne",
                error := some "name \x27album_name\x27 is not defined" },
              { id := some "t2", title := some "SongTwo",
                error := some "name \x27album_name\x27 is not defined" }], st0) :=
  (c6_album_unbound_name spEnv0 st0 "https://open.spotify.com/album/alb99"
      none (some "MyAlbum") "alb99" "MyAlbum" rfl rfl).1

/-! ## Claim C7: the scanned identity field -/

/-- C7 (code evaluation): scanning `mdC7` yields `id = None` for the file
without a `video_id` tag — not its filename stem — because the `video_id`
key is always present in the metadata dictionary, so
`metadata.get('video_id', mp3_file.stem)` never falls back to the stem; for
the tagged file `id` is the tag value, as claimed. -/
theorem c7_scan_id_ignores_stem :
    (scan_all_songs mdC7).map (fun s => s.id) = [none, some "vid123"] ∧
    (scan_all_songs mdC7).map (fun s => s.id) ≠ [some "Artist - Tune", some "vid123"] := by
  constructor
  · decide
  · decide

/-! ## Claim C10: playlist classification -/

theorem isPrefixOf_iff_append : ∀ (n l : List Char),
    n.isPrefixOf l = true ↔ ∃ t, l = n ++ t := by
  intro n
  induction n with
  | nil => intro l; simp [List.isPrefixOf]
  | cons a n ih =>
    intro l
    cases l with
    | nil => simp [List.isPrefixOf]
    | cons b l' =>
      simp only [List.isPrefixOf, Bool.and_eq_true, beq_iff_eq]
      constructor
      · rintro ⟨rfl, h⟩
        rcases (ih l').mp h with ⟨t, rfl⟩
        exact ⟨t, rfl⟩
      · rintro ⟨t, ht⟩
        rw [List.cons_append] at ht
        injection ht with h1 h2
        exact ⟨h1.symm, (ih l').mpr ⟨t, h2⟩⟩

theorem hasSubstrAux_iff (n : List Char) : ∀ l : List Char,
    hasSubstrAux n l = true ↔ ∃ pre post, l = pre ++ n ++ post := by
  intro l
  induction l with
  | nil =>
    simp only [hasSubstrAux]
    constructor
    · intro h
      have hn : n = [] := by simpa [List.isEmpty_iff] using h
      exact ⟨[], [], by simp [hn]⟩
    · rintro ⟨pre, post, hp⟩
      have hp' := hp.symm
      simp only [List.append_eq_nil] at hp'
      simp [List.isEmpty_iff, hp'.1.2]
  | cons c rest ih =>
    simp only [hasSubstrAux, Bool.or_eq_true]
    constructor
    · rintro (h | h)
      · rcases (isPrefixOf_iff_append n (c :: rest)).mp h with ⟨t, ht⟩
        exact ⟨[], t, by simpa using ht⟩
      · rcases ih.mp h with ⟨pre, post, hp⟩
        exact ⟨c :: pre, post, by simp [hp]⟩
    · rintro ⟨pre, post, hp⟩
      cases pre with
      | nil =>
        left
        exact (isPrefixOf_iff_append n (c :: rest)).mpr ⟨post, by simpa using hp⟩
      | cons d pre' =>
        right
        refine ih.mpr ⟨pre', post, ?_⟩
        rw [List.cons_append] at hp
        injection hp with h1 h2

theorem strContains_iff (hay needle : String) :
    strContains hay needle = true ↔
      ∃ pre post, hay.data = pre ++ needle.data ++ post :=
  hasSubstrAux_iff needle.data hay.data

/-- C10: `download` takes the playlist path exactly when the URL contains
`list=` or `/playlist/` as a substring, and otherwise wraps a single
download; in particular a single-video watch URL that also carries a
`list=` parameter is classified as a playlist and expands to all of the
playlist's members (three here), not to that one video. -/
theorem c10_playlist_classification :
    (∀ url : String, is_playlist_url url = true ↔
      ((∃ pre post, url.data = pre ++ "list=".data ++ post) ∨
       (∃ pre post, url.data = pre ++ "/playlist/".data ++ post))) ∧
    (∀ (env : YtEnv) (st : St) (url : String) (odir? : Option Dir)
        (pn? : Option String), is_playlist_url url = true →
      YouTubeDownloader.download env st url odir? pn?
        = YouTubeDownloader.download_playlist env st url odir? pn?) ∧
    (∀ (env : YtEnv) (st : St) (url : String) (odir? : Option Dir)
        (pn? : Option String), is_playlist_url url = false →
      YouTubeDownloader.download env st url odir? pn?
        = (match YouTubeDownloader.download_single env st url odir? pn? with
           | .ok out => .ok (out.st, [out.desc], out.fetches)
           | .error e => .error e)) ∧
    is_playlist_url "https://www.youtube.com/watch?v=aaa&list=PL99" = true ∧
    descCount (YouTubeDownloader.download ytEnv3 st0
      "https://www.youtube.com/watch?v=aaa&list=PL99" none none) = some 3 := by
  refine ⟨?_, ?_, ?_, ?_, ?_⟩
  · intro url
    unfold is_playlist_url
    rw [Bool.or_eq_true]
    constructor
    · rintro (h | h)
      · exact Or.inl ((strContains_iff _ _).mp h)
      · exact Or.inr ((strContains_iff _ _).mp h)
    · rintro (h | h)
      · exact Or.inl ((strContains_iff _ _).mpr h)
      · exact Or.inr ((strContains_iff _ _).mpr h)
  · intro env st url o p h
    simp only [YouTubeDownloader.download, h, if_true]
  · intro env st url o p h
    simp only [YouTubeDownloader.download, h, Bool.false_eq_true, if_false]
  · decide
  · rfl

/-- C10 witness: the theorem's playlist branch applied to the concrete
watch-plus-list URL. -/
theorem c10_playlist_classification_witness :
    YouTubeDownloader.download ytEnv3 st0
        "https://www.youtube.com/watch?v=aaa&list=PL99" none none
      = YouTubeDownloader.download_playlist ytEnv3 st0
        "https://www.youtube.com/watch?v=aaa&list=PL99" none none :=
  c10_playlist_classification.2.1 ytEnv3 st0 _ none none (by decide)

/-! ## Claim C9: structure of `scan_all_songs` -/

theorem foldl_append_eq_join {α β : Type} (f : α → List β) :
    ∀ (l : List α) (acc : List β),
      l.foldl (fun a x => a ++ f x) acc = acc ++ (l.map f).flatten := by
  intro l
  induction l with
  | nil => intro acc; simp
  | cons x xs ih => intro acc; simp [ih]

theorem mem_insertSorted {b s : String} :
    ∀ l : List String, b ∈ insertSorted s l ↔ b = s ∨ b ∈ l := by
  intro l
  induction l with
  | nil => simp [insertSorted]
  | cons t rest ih =>
    unfold insertSorted
    by_cases hst : s ≤ t
    · rw [if_pos hst]
      simp [List.mem_cons]
    · rw [if_neg hst]
      simp [List.mem_cons, ih]
      tauto

theorem sorted_insertSorted (s : String) :
    ∀ l : List String, l.Sorted (· ≤ ·) → (insertSorted s l).Sorted (· ≤ ·) := by
  intro l
  induction l with
  | nil => intro _; simp [insertSorted]
  | cons t rest ih =>
    intro h
    rcases List.sorted_cons.mp h with ⟨hall, htail⟩
    unfold insertSorted
    by_cases hst : s ≤ t
    · rw [if_pos hst]
      refine List.sorted_cons.mpr ⟨?_, h⟩
      intro b hb
      rcases List.mem_cons.mp hb with rfl | hb'
      · exact hst
      · exact le_trans hst (hall b hb')
    · rw [if_neg hst]
      refine List.sorted_cons.mpr ⟨?_, ih htail⟩
      intro b hb
      rcases (mem_insertSorted rest).mp hb with rfl | hb'
      · exact le_of_not_le hst
      · exact hall b hb'

theorem sortStrings_sorted : ∀ l : List String, (sortStrings l).Sorted (· ≤ ·) := by
  intro l
  induction l with
  | nil => simp [sortStrings]
  | cons s rest ih => exact sorted_insertSorted s _ ih

theorem scanItem_videoId (dir : String) (pl : Option String) (f : Mp3File) :
    (scanItem dir pl f).videoId = f.videoIdTag := by
  cases h : splitOnceAux (" - ".data) f.stem.data with
  | none => simp [scanItem, get_mp3_metadata, h]
  | some p =>
    obtain ⟨a, t⟩ := p
    simp [scanItem, get_mp3_metadata, h]

theorem scanItem_path (dir : String) (pl : Option String) (f : Mp3File) :
    (scanItem dir pl f).path = dir ++ "/" ++ (f.stem ++ ".mp3") := by
  cases h : splitOnceAux (" - ".data) f.stem.data with
  | none => simp [scanItem, get_mp3_metadata, h]
  | some p =>
    obtain ⟨a, t⟩ := p
    simp [scanItem, get_mp3_metadata, h]

theorem scan_all_songs_eq (md : MusicDir) :
    scan_all_songs md
      = ((scan_playlists md).map (scan_songs_in_playlist md)).flatten
          ++ md.singles.map (scanItem (md.root ++ "/singles") none)
          ++ md.rootFiles.map (scanItem md.root none) := by
  unfold scan_all_songs
  rw [foldl_append_eq_join]
  simp

/-- C9: `scan_all_songs` is exactly the concatenation of every collection's
items — collections taken in alphabetical order — then the uncategorized
`singles` bucket, then the files directly in the root; nothing is
deduplicated between scopes, so an item whose tag is present in two scopes
is counted at least twice. -/
theorem c9_scan_all_concat (md : MusicDir) :
    scan_all_songs md
      = ((scan_playlists md).map (scan_songs_in_playlist md)).flatten
          ++ md.singles.map (scanItem (md.root ++ "/singles") none)
          ++ md.rootFiles.map (scanItem md.root none) ∧
    (scan_playlists md).Sorted (· ≤ ·) ∧
    (∀ (v : String) (f g : Mp3File), f ∈ md.singles → g ∈ md.rootFiles →
      f.videoIdTag = some v → g.videoIdTag = some v →
      2 ≤ ((scan_all_songs md).filter (fun s => s.videoId == some v)).length) := by
  refine ⟨scan_all_songs_eq md, sortStrings_sorted _, ?_⟩
  intro v f g hf hg hfv hgv
  have hb : 0 < (List.filter (fun s => s.videoId == some v)
      (md.singles.map (scanItem (md.root ++ "/singles") none))).length := by
    apply List.length_pos.mpr
    apply List.ne_nil_of_mem (a := scanItem (md.root ++ "/singles") none f)
    apply List.mem_filter.mpr
    exact ⟨List.mem_map_of_mem _ hf, by simp [scanItem_videoId, hfv]⟩
  have hc : 0 < (List.filter (fun s => s.videoId == some v)
      (md.rootFiles.map (scanItem md.root none))).length := by
    apply List.length_pos.mpr
    apply List.ne_nil_of_mem (a := scanItem md.root none g)
    apply List.mem_filter.mpr
    exact ⟨List.mem_map_of_mem _ hg, by simp [scanItem_videoId, hgv]⟩
  rw [scan_all_songs_eq md, List.filter_append, List.filter_append,
    List.length_append, List.length_append]
  omega

/-- C9 witness: the duplicated tag `dup1` of `mdC9` (present both in
`singles` and directly in the root) is counted twice. -/
theorem c9_scan_all_concat_witness :
    2 ≤ ((scan_all_songs mdC9).filter (fun s => s.videoId == some "dup1")).length :=
  (c9_scan_all_concat mdC9).2.2 "dup1" dupFile dupFile (by decide) (by decide) rfl rfl

/-! ## Claim C2: which completion store each adapter checks -/

/-- C2 counterexample: the ledger holds the id `vidY` — a Completion Ledger
hit — yet the YouTube adapter, which consults only the Filesystem
Reconciler, does not return a skip record: it invokes the fetch engine
(once) and reports a fresh download. -/
theorem c2_ledger_hit_not_skipped_counterexample :
    DownloadCache.is_downloaded stC2.cacheData "vidY" = .ok true ∧
    singleSkipped (YouTubeDownloader.download_single ytEnv1 stC2
      "https://youtu.be/vidY" none none) = some false ∧
    singleFetches (YouTubeDownloader.download_single ytEnv1 stC2
      "https://youtu.be/vidY" none none) = some 1 := by
  refine ⟨?_, ?_, ?_⟩ <;> rfl

/-- C2 (amended): each adapter consults exactly one completion source before
fetching — the primary/YouTube adapter only the Filesystem Reconciler, the
secondary/Spotify adapter only the Completion Ledger — and on a hit in that
source it returns a skip descriptor carrying the existing path without
invoking the fetch engine.  A hit present only in the other store does not
cause a skip (see the counterexample). -/
theorem c2_single_store_skip
    (env : YtEnv) (senv : SpEnv) (st : St) (url surl : String)
    (odir? : Option Dir) (pn? : Option String) (info : YtInfo)
    (hinfo : env.extractInfo url = .ok info)
    (hhit : is_song_downloaded st.musicDir (info.id?.getD "") = true)
    (trackId : String) (hid : spotifyExtractId surl "track" = .ok trackId)
    (hchit : DownloadCache.is_downloaded st.cacheData ("spotify:" ++ trackId) = .ok true)
    (pathJson : Json)
    (hpath : DownloadCache.get_path st.cacheData ("spotify:" ++ trackId) = .ok pathJson) :
    YouTubeDownloader.download_single env st url odir? pn?
      = .ok { desc := { id := some (info.id?.getD ""),
                        title := some (info.title?.getD "Unknown"),
                        artist := some (info.uploader?.getD (info.channel?.getD "Unknown")),
                        skipped := true,
                        path := (find_song_by_video_id st.musicDir (info.id?.getD "")).map
                                  (fun s => s.path) },
              st := st, fetches := 0 } ∧
    SpotifyHandler.download_track senv st surl odir? pn?
      = .ok ({ id := some trackId, skipped := true,
               path := pathJson.asPath }, st) := by
  constructor
  · unfold YouTubeDownloader.download_single
    simp [hinfo, hhit]
  · unfold SpotifyHandler.download_track
    simp only [hid, hchit]
    rw [hpath]

/-- C2 witness: filesystem hit for `vidY` plus ledger hit for
`spotify:tid1` in the state `stHit`; both adapters skip without fetching. -/
theorem c2_single_store_skip_witness :
    singleSkipped (YouTubeDownloader.download_single ytEnv1 stHit
      "https://youtu.be/vidY" none none) = some true ∧
    singleFetches (YouTubeDownloader.download_single ytEnv1 stHit
      "https://youtu.be/vidY" none none) = some 0 ∧
    SpotifyHandler.download_track spEnv0 stHit
        "https://open.spotify.com/track/tid1" none none
      = .ok ({ id := some "tid1", skipped := true, path := some "music/sp.mp3" }, stHit) := by
  have h := c2_single_store_skip ytEnv1 spEnv0 stHit "https://youtu.be/vidY"
    "https://open.spotify.com/track/tid1" none none
    { id? := some "vidY", title? := some "SongY", uploader? := some "Uy" } rfl rfl
    "tid1" rfl rfl (.str "music/sp.mp3") rfl
  refine ⟨?_, ?_, h.2⟩
  · rw [h.1]
    rfl
  · rw [h.1]
    rfl

/-! ## Claim C1: batch partial-failure tolerance -/

/-- C1 (code evaluation at the failing input): for a batch of three
references where only the second raises a Resolution error, the GUI worker
orchestrator (`DownloadWorker.run`) attempts all three and reports exactly
one error in a three-item summary; the CLI loop of `main.py`, however,
aborts on the second reference — the third is never attempted and no
summary is produced. -/
theorem c1_worker_contains_cli_aborts :
    workerSummary (workerRun ytEnvC1 st0
        ["https://youtu.be/aaa", "https://youtu.be/zzz", "https://youtu.be/ccc"]
        none none)
      = some { downloaded := 2, skipped := 0, errors := 1, total := 3 } ∧
    cliDownloadYoutube ytEnvC1 st0
        ["https://youtu.be/aaa", "https://youtu.be/zzz", "https://youtu.be/ccc"]
        none none
      = (["https://youtu.be/aaa", "https://youtu.be/zzz"],
         .error (.youtubeDownloadError "No se pudo obtener información: boom")) := by
  constructor
  · rfl
  · rfl

/-! ## Claim C4: idempotence of a single-item download -/

theorem find?_append_left_none {α : Type} {p : α → Bool} :
    ∀ {l₁ l₂ : List α}, l₁.find? p = none → (l₁ ++ l₂).find? p = l₂.find? p := by
  intro l₁ l₂ h
  induction l₁ with
  | nil => simp
  | cons a t ih =>
    by_cases hp : p a
    · rw [List.find?_cons_of_pos _ hp] at h
      cases h
    · rw [List.find?_cons_of_neg _ hp] at h
      rw [List.cons_append, List.find?_cons_of_neg _ hp]
      exact ih h

theorem find?_append_left_some {α : Type} {p : α → Bool} {x : α} :
    ∀ {l₁ l₂ : List α}, l₁.find? p = some x → (l₁ ++ l₂).find? p = some x := by
  intro l₁ l₂ h
  induction l₁ with
  | nil => cases h
  | cons a t ih =>
    by_cases hp : p a
    · rw [List.find?_cons_of_pos _ hp] at h
      rw [List.cons_append, List.find?_cons_of_pos _ hp]
      exact h
    · rw [List.find?_cons_of_neg _ hp] at h
      rw [List.cons_append, List.find?_cons_of_neg _ hp]
      exact ih h

theorem find?_map_replace {p : SongMeta → Bool} {h : Mp3File → SongMeta}
    (f : Mp3File) (hf : p (h f) = true) :
    ∀ s : List Mp3File, (∀ g ∈ s, p (h g) = false) →
      s.any (fun g => g.stem == f.stem) = true →
      ((s.map (fun g => if g.stem == f.stem then f else g)).map h).find? p
        = some (h f) := by
  intro s
  induction s with
  | nil => intro _ hany; cases hany
  | cons a t ih =>
    intro hold hany
    by_cases ha : (a.stem == f.stem) = true
    · simp only [List.map_cons, ha, if_true]
      rw [List.find?_cons_of_pos _ hf]
    · simp only [List.map_cons, ha, Bool.false_eq_true, if_false]
      rw [List.find?_cons_of_neg _ (by rw [hold a (List.mem_cons_self a t)]; simp)]
      refine ih (fun g hg => hold g (List.mem_cons_of_mem _ hg)) ?_
      simpa [ha] using hany

theorem find?_map_putFile {p : SongMeta → Bool} {h : Mp3File → SongMeta}
    (f : Mp3File) (hf : p (h f) = true)
    (s : List Mp3File) (hold : ∀ g ∈ s, p (h g) = false) :
    ((putFile s f).map h).find? p = some (h f) := by
  unfold putFile
  by_cases hany : s.any (fun g => g.stem == f.stem) = true
  · rw [if_pos hany]
    exact find?_map_replace f hf s hold hany
  · rw [if_neg hany]
    rw [List.map_append]
    rw [find?_append_left_none (List.find?_eq_none.mpr ?_)]
    · simp [List.find?_cons, hf]
    · intro x hx
      rcases List.mem_map.mp hx with ⟨g, hg, rfl⟩
      simp [hold g hg]

theorem scan_all_songs_addFile_singles (md : MusicDir) (f : Mp3File) :
    scan_all_songs (md.addFile Dir.singles f)
      = ((scan_playlists md).map (scan_songs_in_playlist md)).flatten
          ++ (putFile md.singles f).map (scanItem (md.root ++ "/singles") none)
          ++ md.rootFiles.map (scanItem md.root none) := by
  rw [scan_all_songs_eq]
  rfl

theorem find_song_after_addFile_singles (md : MusicDir) (f : Mp3File) (v : String)
    (hmiss : is_song_downloaded md v = false) (hf : f.videoIdTag = some v) :
    find_song_by_video_id (md.addFile Dir.singles f) v
      = some (scanItem (md.root ++ "/singles") none f) := by
  have hnone : (scan_all_songs md).find? (fun s => s.videoId == some v) = none := by
    rcases hx : (scan_all_songs md).find? (fun s => s.videoId == some v) with _ | s
    · exact hx
    · exfalso
      unfold is_song_downloaded find_song_by_video_id at hmiss
      rw [hx] at hmiss
      cases hmiss
  have hallF : ∀ s ∈ scan_all_songs md, (s.videoId == some v) = false := by
    intro s hs
    have h' := List.find?_eq_none.mp hnone s hs
    simpa using h'
  unfold find_song_by_video_id
  rw [scan_all_songs_addFile_singles, List.append_assoc]
  rw [find?_append_left_none (List.find?_eq_none.mpr ?_)]
  · apply find?_append_left_some
    apply find?_map_putFile
    · rw [scanItem_videoId, hf]
      simp
    · intro g hg
      apply hallF
      rw [scan_all_songs_eq]
      exact List.mem_append_left _ (List.mem_append_right _ (List.mem_map_of_mem _ hg))
  · intro x hx
    have hx' : x ∈ scan_all_songs md := by
      rw [scan_all_songs_eq]
      exact List.mem_append_left _ (List.mem_append_left _ hx)
    simp [hallF x hx']

/-- C4: if a single-item `download` (a non-playlist url, no explicit output
directory) succeeds with a fresh — not skipped — descriptor, then a second
`download` of the same url against the resulting state returns a single
`skipped` descriptor whose reported path equals the first call's path, with
zero fetch-engine invocations and an unchanged state. -/
theorem c4_download_idempotent (env : YtEnv) (st st1 : St) (url : String)
    (pn? : Option String) (d1 : Desc) (k : Nat)
    (hnp : is_playlist_url url = false)
    (h1 : YouTubeDownloader.download env st url none pn? = .ok (st1, [d1], k))
    (hfresh : d1.skipped = false) :
    ∃ p, d1.path = some p ∧
      YouTubeDownloader.download env st1 url none pn?
        = .ok (st1, [{ id := d1.id, title := d1.title, artist := d1.artist,
                       skipped := true, path := some p }], 0) := by
  simp only [YouTubeDownloader.download, hnp, Bool.false_eq_true, if_false] at h1 ⊢
  cases hds : YouTubeDownloader.download_single env st url none pn? with
  | error e =>
    simp only [hds] at h1
    cases h1
  | ok out =>
    simp only [hds] at h1
    have h1' : out.st = st1 ∧ out.desc = d1 ∧ out.fetches = k := by simpa using h1
    obtain ⟨hst1, hd1, -⟩ := h1'
    unfold YouTubeDownloader.download_single at hds
    simp only [Option.getD_none] at hds
    split at hds
    · cases hds
    · rename_i info hinfo
      split at hds
      · rename_i hdl
        injection hds with hout
        rw [← hout] at hd1
        rw [← hd1] at hfresh
        simp at hfresh
      · rename_i hdl
        split at hds
        · cases hds
        · rename_i u hf
          split at hds
          · cases hds
          · rename_i data' hreg
            injection hds with hout
            subst hout
            have hfound := find_song_after_addFile_singles st.musicDir
              (fetchedFile info) (info.id?.getD "") (Bool.eq_false_iff.mpr hdl) rfl
            have hisd : is_song_downloaded
                (st.musicDir.addFile Dir.singles (fetchedFile info))
                (info.id?.getD "") = true := by
              unfold is_song_downloaded
              rw [hfound]
              rfl
            have h2 : YouTubeDownloader.download_single env
                { musicDir := st.musicDir.addFile Dir.singles (fetchedFile info),
                  cacheData := data' } url none pn?
              = .ok { desc :=
                        { id := some (info.id?.getD ""),
                          title := some (info.title?.getD "Unknown"),
                          artist := some (info.uploader?.getD (info.channel?.getD "Unknown")),
                          skipped := true,
                          path := some ((st.musicDir.root ++ "/singles") ++ "/"
                            ++ ((fetchedFile info).stem ++ ".mp3")) },
                      st := { musicDir := st.musicDir.addFile Dir.singles (fetchedFile info),
                              cacheData := data' }, fetches := 0 } := by
              unfold YouTubeDownloader.download_single
              simp only [hinfo, hisd, eq_self_iff_true, if_true, hfound,
                Option.map_some', scanItem_path]
            have hstS : st1 = { musicDir := st.musicDir.addFile Dir.singles (fetchedFile info),
                                cacheData := data' } := by
              rw [← hst1]
              rfl
            have hdS : d1 = { id := some (info.id?.getD ""),
                              title := some (info.title?.getD "Unknown"),
                              artist := some (info.uploader?.getD (info.channel?.getD "Unknown")),
                              skipped := false,
                              path := some (Dir.singles.path st.musicDir.root ++ "/"
                                ++ sanitize_filename (info.title?.getD "Unknown") ++ ".mp3") } := by
              rw [← hd1]
            subst hstS
            subst hdS
            refine ⟨_, rfl, ?_⟩
            rw [h2]
            simp [String.append_assoc, Dir.path, fetchedFile]

/-- C4 witness: the theorem applied to a concrete successful first
download of `vidY` over the empty state. -/
theorem c4_download_idempotent_witness :
    ∃ p, d1C4.path = some p ∧
      YouTubeDownloader.download ytEnv1 stAfterC4 "https://youtu.be/vidY" none none
        = .ok (stAfterC4, [{ id := d1C4.id, title := d1C4.title, artist := d1C4.artist,
                             skipped := true, path := some p }], 0) :=
  c4_download_idempotent ytEnv1 st0 stAfterC4 "https://youtu.be/vidY" none d1C4 1
    rfl rfl rfl

end MusicDownloader
